import Mathlib

/-!
Shallow embedding of src/scanarr/main.py (class TrackerSearcher and the main
orchestration) and proofs about the per-query verification protocol: search
classification, retry and backoff, delay self-tuning, result-count abort,
descriptor matching, and query encoding.

Network interactions are modelled by oracles: an attempt oracle giving the
outcome of each HTTP search call (an exception, or a parsed JSON body) and a
fetch oracle giving the outcome of each content-descriptor (torrent file)
download. The embedded functions thread the mutable delay state explicitly
and record the observable effects (backoff sleeps performed, descriptor URLs
fetched) that the Python code produces as side effects. Monetary-free float
arithmetic on the delay (additions by 1, max with 4, multiplication by a
small attempt count) is exact in IEEE doubles for the ranges involved, so the
delay is modelled as a rational number.
-/

namespace Scanarr

/-- One element of the Indexers array of the backend response; only its
optional Error field is inspected (main.py lines 66-75). A missing key gives
Python None, hence Option. -/
structure Indexer where
  Error : Option String
deriving DecidableEq

/-- One element of the Results array: the code reads keys Title and Link via
result.get (main.py lines 193-194); absent keys yield Python None, hence
Option. -/
structure SearchResult where
  Title : Option String
  Link : Option String
deriving DecidableEq

/-- Outcome of one raw HTTP search attempt as seen by search_tracker: either
an exception is raised below it (requests timeout, raise_for_status on a
non-2xx status, or JSON decoding failure), or a parsed body carrying the
Indexers and Results arrays (main.py lines 61-63). -/
inductive SearchResponse where
  | exn : SearchResponse
  | ok : List Indexer → List SearchResult → SearchResponse
deriving DecidableEq

/-- Which diagnostic search_tracker prints for a per-indexer error
(main.py lines 70-73). -/
inductive ErrDiag where
  | tooMany : ErrDiag
  | unknown : ErrDiag
deriving DecidableEq

/-- Return/raise behaviour of one search_tracker call: the exception
propagates out of the function, or the function returns None (here: failed,
with the diagnostic it printed), or it returns the Results list. -/
inductive SearchCall where
  | raised : SearchCall
  | failed : ErrDiag → SearchCall
  | results : List SearchResult → SearchCall
deriving DecidableEq

/-- Python substring test (needle in haystack) on character lists. -/
def isSubstring (needle : List Char) : List Char → Bool
  | [] => needle.isEmpty
  | c :: rest => needle.isPrefixOf (c :: rest) || isSubstring needle rest

/-- Sub-classification of a per-indexer error string (main.py line 70):
rate limited when the text contains TooManyRequests, unknown otherwise. -/
def classifyError (e : String) : ErrDiag :=
  if isSubstring "TooManyRequests".data e.data then ErrDiag.tooMany
  else ErrDiag.unknown

/-- The loop of main.py lines 67-75: the first indexer whose Error value is
truthy (present and non-empty) decides the failure; later indexers are not
reached. Returns that error text when one exists. -/
def firstIndexerError : List Indexer → Option String
  | [] => none
  | ix :: rest =>
      match ix.Error with
      | some e => if e = "" then firstIndexerError rest else some e
      | none => firstIndexerError rest

/-- TrackerSearcher.search_tracker (main.py lines 41-76), given the raw
response of its single HTTP GET. Exceptions propagate; a per-indexer error
makes the function print a diagnostic and return None; otherwise the Results
array is returned (missing key: empty list). -/
def search_tracker (resp : SearchResponse) : SearchCall :=
  match resp with
  | SearchResponse.exn => SearchCall.raised
  | SearchResponse.ok indexers results =>
      match firstIndexerError indexers with
      | some e => SearchCall.failed (classifyError e)
      | none => SearchCall.results results

/-- The info dictionary of a bencode-decoded torrent file, as far as the code
inspects it: only the optional name entry (main.py lines 100-101). -/
structure TorrentInfo where
  name : Option String
deriving DecidableEq

/-- A bencode-decoded torrent file, as far as the code inspects it: only the
optional info dictionary. -/
structure TorrentData where
  info : Option TorrentInfo
deriving DecidableEq

/-- Outcome of one descriptor download and decode: any exception on the path
(network, non-2xx status, bencode decode, non-UTF-8 name) or the decoded
data. -/
inductive FetchResult where
  | exn : FetchResult
  | ok : TorrentData → FetchResult
deriving DecidableEq

/-- TrackerSearcher.get_torrent_name (main.py lines 78-107), given the fetch
oracle. A missing Link (Python None) makes session.get raise inside the try
block, so the handler returns the empty string without any network call.
Otherwise: exception gives the empty string, decoded data gives the name at
the path info.name when both keys are present, and the empty string when the
path is absent. -/
def get_torrent_name (fetch : String → FetchResult) (torrent_url : Option String) : String :=
  match torrent_url with
  | none => ""
  | some url =>
      match fetch url with
      | FetchResult.exn => ""
      | FetchResult.ok data =>
          match data.info with
          | some info =>
              match info.name with
              | some name => name
              | none => ""
          | none => ""

/-- TrackerSearcher.matches_query (main.py lines 109-122): case-insensitive
substring containment of the query inside the torrent name. Case folding is
modelled on ASCII. -/
def matches_query (torrent_name query : String) : Bool :=
  isSubstring (query.data.map Char.toLower) (torrent_name.data.map Char.toLower)

/-- Exit of the retry loop of main.py lines 166-174, with the backoff sleeps
that were performed inside the loop, in order. -/
inductive LoopExit where
  | exn : List ℚ → LoopExit
  | success : List SearchResult → Bool → List ℚ → LoopExit
  | exhausted : List ℚ → LoopExit
deriving DecidableEq

/-- The retry loop of main.py lines 166-174: attempt is the Python loop
variable, fuel the remaining iterations, had the had_errors flag and sleeps
the accumulated backoff waits. An exception from search_tracker propagates
(no handler exists); a None return sets had_errors, sleeps
max(delay, 4.0) * (attempt + 1) and retries; a returned list breaks out. -/
def retryLoop (delay : ℚ) (attempts : ℕ → SearchResponse) :
    ℕ → ℕ → Bool → List ℚ → LoopExit
  | _, 0, _, sleeps => LoopExit.exhausted sleeps
  | attempt, fuel + 1, had, sleeps =>
      match search_tracker (attempts attempt) with
      | SearchCall.raised => LoopExit.exn sleeps
      | SearchCall.failed _ =>
          retryLoop delay attempts (attempt + 1) fuel true
            (sleeps ++ [max delay 4 * ((attempt : ℚ) + 1)])
      | SearchCall.results rs => LoopExit.success rs had sleeps

/-- How one search_and_verify call ends: an uncaught exception crashes the
process, sys.exit(1) aborts it fatally, or the call returns a boolean. -/
inductive Outcome where
  | exn : Outcome
  | fatal : Outcome
  | ret : Bool → Outcome
deriving DecidableEq

/-- Observable result of one search_and_verify call: how it ended, the value
of self.delay afterwards, the backoff sleeps performed and the descriptor
URLs actually requested, in order. -/
structure VerifyResult where
  outcome : Outcome
  delay : ℚ
  sleeps : List ℚ
  fetched : List String
deriving DecidableEq

/-- The candidate loop of main.py lines 192-200: for every result the code
calls get_torrent_name on its Link (an actual descriptor request happens
exactly when the Link is present) and sets found_match when the extracted
name is truthy (non-empty) and matches the query. The results list built for
verbose printing is not modelled. -/
def scanResults (fetch : String → FetchResult) (query : String) :
    List SearchResult → Bool → List String → Bool × List String
  | [], found, fetched => (found, fetched)
  | r :: rest, found, fetched =>
      let fetched2 := match r.Link with
        | some url => fetched ++ [url]
        | none => fetched
      let name := get_torrent_name fetch r.Link
      scanResults fetch query rest
        (found || (!(name == "") && matches_query name query)) fetched2

/-- TrackerSearcher.search_and_verify (main.py lines 151-221): run the retry
loop; exhaustion of the attempts is sys.exit(1); more than 5 results is
sys.exit(1) before any descriptor fetch; then self.delay grows by 1 when
had_errors was set; finally the candidates are scanned and found_match is
returned. Console output and the verbose block are not modelled. -/
def search_and_verify (delay : ℚ) (max_retries : ℕ) (query : String)
    (attempts : ℕ → SearchResponse) (fetch : String → FetchResult) : VerifyResult :=
  match retryLoop delay attempts 0 max_retries false [] with
  | LoopExit.exn s => ⟨Outcome.exn, delay, s, []⟩
  | LoopExit.exhausted s => ⟨Outcome.fatal, delay, s, []⟩
  | LoopExit.success rs had s =>
      if rs.length > 5 then ⟨Outcome.fatal, delay, s, []⟩
      else
        let d := if had then delay + 1 else delay
        let p := scanResults fetch query rs false []
        ⟨Outcome.ret p.1, d, s, p.2⟩

/-- How a whole batch (or the whole program) ends: normally with a list, or
by the fatal abort, or by an uncaught exception. -/
inductive RunExit where
  | ok : List String → RunExit
  | fatal : RunExit
  | exn : RunExit
deriving DecidableEq

/-- Observable result of one search_and_verify_all call: the found list (on
normal exit), the delay afterwards and the queries handed to
search_and_verify, in order. -/
structure AllResult where
  exitc : RunExit
  delay : ℚ
  trace : List String
deriving DecidableEq

/-- The loop of TrackerSearcher.search_and_verify_all (main.py lines
135-147): each item is searched in order; a found item is appended to the
found list. The inter-item sleep and the progress bar have no effect on the
returned values and are not modelled. A fatal exit or an exception inside
search_and_verify ends the whole process. -/
def verifyAllGo (mr : ℕ) (attempts : String → ℕ → SearchResponse)
    (fetch : String → FetchResult) :
    List String → ℚ → List String → List String → AllResult
  | [], delay, found, trace => ⟨RunExit.ok found, delay, trace⟩
  | q :: rest, delay, found, trace =>
      let r := search_and_verify delay mr q (attempts q) fetch
      match r.outcome with
      | Outcome.exn => ⟨RunExit.exn, r.delay, trace ++ [q]⟩
      | Outcome.fatal => ⟨RunExit.fatal, r.delay, trace ++ [q]⟩
      | Outcome.ret b =>
          verifyAllGo mr attempts fetch rest r.delay
            (if b then found ++ [q] else found) (trace ++ [q])

/-- TrackerSearcher.search_and_verify_all (main.py lines 124-149). -/
def search_and_verify_all (mr : ℕ) (attempts : String → ℕ → SearchResponse)
    (fetch : String → FetchResult) (queries : List String) (delay : ℚ) : AllResult :=
  verifyAllGo mr attempts fetch queries delay [] []

/-- Observable result of the main filtering step: the not_found list (on
normal exit), the final delay and the concatenated trace of all queries
handed to search_and_verify across the run. -/
structure MainResult where
  exitc : RunExit
  delay : ℚ
  trace : List String
deriving DecidableEq

/-- The list comprehension of main.py line 504. Python evaluates the filter
condition separately for every element, so searcher.search_and_verify_all
is called once per item, each call receiving the full items list and the
searcher delay left behind by the previous call. -/
def mainFilterGo (mr : ℕ) (attempts : String → ℕ → SearchResponse)
    (fetch : String → FetchResult) (items : List String) :
    List String → ℚ → List String → List String → MainResult
  | [], delay, notFound, trace => ⟨RunExit.ok notFound, delay, trace⟩
  | item :: rest, delay, notFound, trace =>
      let r := search_and_verify_all mr attempts fetch items delay
      match r.exitc with
      | RunExit.ok found =>
          mainFilterGo mr attempts fetch items rest r.delay
            (if item ∈ found then notFound else notFound ++ [item])
            (trace ++ r.trace)
      | RunExit.fatal => ⟨RunExit.fatal, r.delay, trace ++ r.trace⟩
      | RunExit.exn => ⟨RunExit.exn, r.delay, trace ++ r.trace⟩

/-- The not_found computation of main (main.py line 504), started on the
items list with the configured delay. -/
def main_not_found (mr : ℕ) (attempts : String → ℕ → SearchResponse)
    (fetch : String → FetchResult) (items : List String) (delay : ℚ) : MainResult :=
  mainFilterGo mr attempts fetch items items delay [] []

/-- Uppercase hexadecimal digit for a value below 16. -/
def hexUpper (n : ℕ) : Char :=
  if n < 10 then Char.ofNat (48 + n) else Char.ofNat (55 + n)

/-- UTF-8 bytes of a code point. -/
def utf8Bytes (n : ℕ) : List ℕ :=
  if n < 128 then [n]
  else if n < 2048 then [192 + n / 64, 128 + n % 64]
  else if n < 65536 then [224 + n / 4096, 128 + (n / 64) % 64, 128 + n % 64]
  else [240 + n / 262144, 128 + (n / 4096) % 64, 128 + (n / 64) % 64, 128 + n % 64]

/-- Percent escape of one byte, uppercase hexadecimal. -/
def quoteByte (n : ℕ) : List Char :=
  ['%', hexUpper (n / 16), hexUpper (n % 16)]

/-- The characters urllib never escapes: ASCII letters, digits and the four
marks underscore, dot, dash, tilde. -/
def isSafeChar (c : Char) : Bool :=
  c.isAlphanum || c = '_' || c = '.' || c = '-' || c = '~'

/-- Encoding of one character under urllib.parse.quote_plus with an empty
safe set: space becomes a plus, safe characters pass through, everything
else is percent escaped byte by byte. -/
def quotePlusChar (c : Char) : List Char :=
  if c = ' ' then ['+']
  else if isSafeChar c then [c]
  else (utf8Bytes c.toNat).map quoteByte |>.flatten

/-- urllib.parse.quote_plus, as called on main.py lines 51-52. -/
def quote_plus (s : String) : String :=
  ⟨(s.data.map quotePlusChar).flatten⟩

/-- The value search_tracker stores under the Query key of the params
dictionary (main.py lines 51 and 57): the query already passed through
quote_plus once. -/
def query_param_value (query : String) : String :=
  quote_plus query

/-- Model of the HTTP layer below search_tracker, which is outside this
repository: requests serialises a params dictionary with
urllib.parse.urlencode, which applies quote_plus to every value again. The
value of the Query parameter on the wire is therefore the double encoding
of the original query. -/
def wire_Query (query : String) : String :=
  quote_plus (query_param_value query)

/-- The sleeps recorded in a loop exit. -/
def sleepsOf : LoopExit → List ℚ
  | LoopExit.exn s => s
  | LoopExit.success _ _ s => s
  | LoopExit.exhausted s => s

/-- Number of leading attempts, starting at start and bounded by fuel, that
search_tracker answers with a per-indexer failure. -/
def failStreak (attempts : ℕ → SearchResponse) : ℕ → ℕ → ℕ
  | _, 0 => 0
  | start, fuel + 1 =>
      match search_tracker (attempts start) with
      | SearchCall.failed _ => failStreak attempts (start + 1) fuel + 1
      | _ => 0

/-- Two search_tracker outcomes that differ at most in the failure
diagnostic. -/
def diagEquiv : SearchCall → SearchCall → Prop
  | SearchCall.raised, SearchCall.raised => True
  | SearchCall.failed _, SearchCall.failed _ => True
  | SearchCall.results r1, SearchCall.results r2 => r1 = r2
  | _, _ => False

/-- Concrete fetch oracle: every descriptor download raises. -/
def noFetch : String → FetchResult := fun _ => FetchResult.exn

/-- Concrete attempt oracle: two per-indexer failures, then a single
result. -/
def twoFailAttempts : ℕ → SearchResponse
  | 0 => SearchResponse.ok [⟨some "E"⟩] []
  | 1 => SearchResponse.ok [⟨some "E"⟩] []
  | _ + 2 => SearchResponse.ok [] [⟨some "T", some "L"⟩]

/-- Concrete fetch oracle: every descriptor decodes with name qq.match. -/
def matchFetch : String → FetchResult :=
  fun _ => FetchResult.ok ⟨some ⟨some "qq.match"⟩⟩

/-- Concrete attempt oracle: one result on every attempt. -/
def oneResultAttempts : ℕ → SearchResponse :=
  fun _ => SearchResponse.ok [] [⟨some "T", some "L"⟩]

/-- Concrete fetch oracle: every descriptor decodes with an empty name at
path info.name. -/
def emptyNameFetch : String → FetchResult :=
  fun _ => FetchResult.ok ⟨some ⟨some ""⟩⟩

/-- Concrete attempt oracle for every query: success with zero results. -/
def zeroResultAttempts : String → ℕ → SearchResponse :=
  fun _ _ => SearchResponse.ok [] []

/-- Concrete attempt oracle: a rate-limit indexer error on every attempt. -/
def alwaysFailAttempts : ℕ → SearchResponse :=
  fun _ => SearchResponse.ok [⟨some "TooManyRequests"⟩] []

/-- Concrete attempt oracle: one per-indexer failure, then an exception. -/
def failThenRaise : ℕ → SearchResponse
  | 0 => SearchResponse.ok [⟨some "E"⟩] []
  | _ + 1 => SearchResponse.exn

/-- Concrete attempt oracle: success with six results. -/
def sixResultsAttempts : ℕ → SearchResponse :=
  fun _ => SearchResponse.ok [] (List.replicate 6 ⟨some "T", none⟩)

theorem isSubstring_nil (l : List Char) : isSubstring [] l = true := by
  cases l <;> simp [isSubstring, List.isEmpty]

theorem scanResults_fst (fetch : String → FetchResult) (q : String) :
    ∀ (rs : List SearchResult) (b : Bool) (acc : List String),
    (scanResults fetch q rs b acc).1
      = (b || rs.any fun r =>
          !(get_torrent_name fetch r.Link == "") &&
            matches_query (get_torrent_name fetch r.Link) q) := by
  intro rs
  induction rs with
  | nil => intro b acc; simp [scanResults]
  | cons r rest ih =>
      intro b acc
      simp [scanResults, ih, Bool.or_assoc]

theorem retryLoop_sleeps (delay : ℚ) (attempts : ℕ → SearchResponse) :
    ∀ (fuel start : ℕ) (had : Bool) (acc : List ℚ),
    sleepsOf (retryLoop delay attempts start fuel had acc)
      = acc ++ (List.range (failStreak attempts start fuel)).map
          (fun j => max delay 4 * (((start + j : ℕ) : ℚ) + 1)) := by
  intro fuel
  induction fuel with
  | zero => intro start had acc; simp [retryLoop, sleepsOf, failStreak]
  | succ fuel ih =>
      intro start had acc
      cases hst : search_tracker (attempts start) with
      | raised => simp [retryLoop, hst, sleepsOf, failStreak]
      | results rs => simp [retryLoop, hst, sleepsOf, failStreak]
      | failed d =>
          have hrec := ih (start + 1) true
            (acc ++ [max delay 4 * ((start : ℚ) + 1)])
          have hfs : failStreak attempts start (fuel + 1)
              = failStreak attempts (start + 1) fuel + 1 := by
            simp [failStreak, hst]
          simp only [retryLoop, hst, hrec, hfs, List.range_succ_eq_map,
            List.map_cons, List.map_map, List.append_assoc]
          congr 1
          rw [List.singleton_append]
          have hhead : max delay 4 * ((start : ℚ) + 1)
              = max delay 4 * (((start + 0 : ℕ) : ℚ) + 1) := by
            norm_num
          have htail : ∀ j : ℕ,
              max delay 4 * (((start + 1 + j : ℕ) : ℚ) + 1)
                = max delay 4 * (((start + Nat.succ j : ℕ) : ℚ) + 1) := by
            intro j
            have : start + 1 + j = start + Nat.succ j := by omega
            rw [this]
          rw [hhead]
          refine congrArg₂ List.cons rfl ?_
          refine List.map_congr_left ?_
          intro j hj
          simpa [Function.comp] using htail j

theorem search_and_verify_sleeps (delay : ℚ) (mr : ℕ) (q : String)
    (attempts : ℕ → SearchResponse) (fetch : String → FetchResult) :
    (search_and_verify delay mr q attempts fetch).sleeps
      = sleepsOf (retryLoop delay attempts 0 mr false []) := by
  unfold search_and_verify
  cases retryLoop delay attempts 0 mr false [] with
  | exn s => rfl
  | exhausted s => rfl
  | success rs had s =>
      simp only [sleepsOf]
      split <;> rfl

theorem retryLoop_exhausted_of_failed (delay : ℚ) (attempts : ℕ → SearchResponse) :
    ∀ (fuel start : ℕ) (had : Bool) (acc : List ℚ),
    (∀ i, i < fuel → ∃ d, search_tracker (attempts (start + i)) = SearchCall.failed d) →
    ∃ s, retryLoop delay attempts start fuel had acc = LoopExit.exhausted s := by
  intro fuel
  induction fuel with
  | zero => intro start had acc _; exact ⟨acc, rfl⟩
  | succ fuel ih =>
      intro start had acc h
      obtain ⟨d, hd⟩ := h 0 (Nat.succ_pos _)
      rw [Nat.add_zero] at hd
      have hrest : ∀ i, i < fuel →
          ∃ d2, search_tracker (attempts (start + 1 + i)) = SearchCall.failed d2 := by
        intro i hi
        have h2 := h (i + 1) (by omega)
        rwa [show start + (i + 1) = start + 1 + i by omega] at h2
      obtain ⟨s, hs⟩ := ih (start + 1) true
        (acc ++ [max delay 4 * ((start : ℚ) + 1)]) hrest
      exact ⟨s, by simp [retryLoop, hd, hs]⟩

theorem retryLoop_exn_of (delay : ℚ) (attempts : ℕ → SearchResponse) :
    ∀ (k fuel start : ℕ) (had : Bool) (acc : List ℚ),
    k < fuel →
    (∀ i, i < k → ∃ d, search_tracker (attempts (start + i)) = SearchCall.failed d) →
    search_tracker (attempts (start + k)) = SearchCall.raised →
    ∃ s, retryLoop delay attempts start fuel had acc = LoopExit.exn s := by
  intro k
  induction k with
  | zero =>
      intro fuel start had acc hk _ hexn
      cases fuel with
      | zero => omega
      | succ fuel =>
          rw [Nat.add_zero] at hexn
          exact ⟨acc, by simp [retryLoop, hexn]⟩
  | succ k ih =>
      intro fuel start had acc hk hfail hexn
      cases fuel with
      | zero => omega
      | succ fuel =>
          obtain ⟨d, hd⟩ := hfail 0 (Nat.succ_pos _)
          rw [Nat.add_zero] at hd
          have hexn2 : search_tracker (attempts (start + 1 + k)) = SearchCall.raised := by
            rwa [show start + 1 + k = start + (k + 1) by omega]
          have hrest : ∀ i, i < k →
              ∃ d2, search_tracker (attempts (start + 1 + i)) = SearchCall.failed d2 := by
            intro i hi
            have h2 := hfail (i + 1) (by omega)
            rwa [show start + (i + 1) = start + 1 + i by omega] at h2
          obtain ⟨s, hs⟩ := ih fuel (start + 1) true
            (acc ++ [max delay 4 * ((start : ℚ) + 1)]) (by omega) hrest hexn2
          exact ⟨s, by simp [retryLoop, hd, hs]⟩

theorem failStreak_eq (attempts : ℕ → SearchResponse) :
    ∀ (k fuel start : ℕ),
    k < fuel →
    (∀ i, i < k → ∃ d, search_tracker (attempts (start + i)) = SearchCall.failed d) →
    search_tracker (attempts (start + k)) = SearchCall.raised →
    failStreak attempts start fuel = k := by
  intro k
  induction k with
  | zero =>
      intro fuel start hk _ hexn
      cases fuel with
      | zero => omega
      | succ fuel =>
          rw [Nat.add_zero] at hexn
          simp [failStreak, hexn]
  | succ k ih =>
      intro fuel start hk hfail hexn
      cases fuel with
      | zero => omega
      | succ fuel =>
          obtain ⟨d, hd⟩ := hfail 0 (Nat.succ_pos _)
          rw [Nat.add_zero] at hd
          have hexn2 : search_tracker (attempts (start + 1 + k)) = SearchCall.raised := by
            rwa [show start + 1 + k = start + (k + 1) by omega]
          have hrest : ∀ i, i < k →
              ∃ d2, search_tracker (attempts (start + 1 + i)) = SearchCall.failed d2 := by
            intro i hi
            have h2 := hfail (i + 1) (by omega)
            rwa [show start + (i + 1) = start + 1 + i by omega] at h2
          have := ih fuel (start + 1) (by omega) hrest hexn2
          simp [failStreak, hd, this]

theorem retryLoop_had_true (delay : ℚ) (attempts : ℕ → SearchResponse) :
    ∀ (fuel start : ℕ) (acc : List ℚ) (rs : List SearchResult) (had : Bool) (s : List ℚ),
    retryLoop delay attempts start fuel true acc = LoopExit.success rs had s → had = true := by
  intro fuel
  induction fuel with
  | zero => intro start acc rs had s h; simp [retryLoop] at h
  | succ fuel ih =>
      intro start acc rs had s h
      cases hst : search_tracker (attempts start) with
      | raised => simp [retryLoop, hst] at h
      | failed d =>
          simp only [retryLoop, hst] at h
          exact ih _ _ _ _ _ h
      | results rs2 =>
          simp only [retryLoop, hst] at h
          injection h with h1 h2 h3
          exact h2.symm

theorem retryLoop_first_dichotomy (delay : ℚ) (attempts : ℕ → SearchResponse)
    (mr : ℕ) (rs : List SearchResult) (had : Bool) (s : List ℚ)
    (h : retryLoop delay attempts 0 mr false [] = LoopExit.success rs had s) :
    (had = false ∧ search_tracker (attempts 0) = SearchCall.results rs) ∨
    (had = true ∧ ∃ d, search_tracker (attempts 0) = SearchCall.failed d) := by
  cases mr with
  | zero => simp [retryLoop] at h
  | succ fuel =>
      cases hst : search_tracker (attempts 0) with
      | raised => simp [retryLoop, hst] at h
      | failed d =>
          simp only [retryLoop, hst] at h
          exact Or.inr ⟨retryLoop_had_true delay attempts fuel 1 _ rs had s h, d, rfl⟩
      | results rs2 =>
          simp only [retryLoop, hst] at h
          injection h with h1 h2 h3
          exact Or.inl ⟨h2.symm, by rw [h1]⟩

theorem verify_outcome_ret (delay : ℚ) (mr : ℕ) (q : String)
    (attempts : ℕ → SearchResponse) (fetch : String → FetchResult) (b : Bool)
    (h : (search_and_verify delay mr q attempts fetch).outcome = Outcome.ret b) :
    ∃ rs had s, retryLoop delay attempts 0 mr false [] = LoopExit.success rs had s ∧
      ¬ rs.length > 5 := by
  unfold search_and_verify at h
  cases hloop : retryLoop delay attempts 0 mr false [] with
  | exn s => rw [hloop] at h; simp at h
  | exhausted s => rw [hloop] at h; simp at h
  | success rs had s =>
      by_cases hlen : rs.length > 5
      · rw [hloop] at h; simp [hlen] at h
      · exact ⟨rs, had, s, rfl, hlen⟩

theorem verify_delay_eq (delay : ℚ) (mr : ℕ) (q : String)
    (attempts : ℕ → SearchResponse) (fetch : String → FetchResult)
    (rs : List SearchResult) (had : Bool) (s : List ℚ)
    (hloop : retryLoop delay attempts 0 mr false [] = LoopExit.success rs had s)
    (hlen : ¬ rs.length > 5) :
    (search_and_verify delay mr q attempts fetch).delay
      = if had then delay + 1 else delay := by
  simp [search_and_verify, hloop, hlen]

theorem verify_delay_mono (delay : ℚ) (mr : ℕ) (q : String)
    (attempts : ℕ → SearchResponse) (fetch : String → FetchResult) :
    delay ≤ (search_and_verify delay mr q attempts fetch).delay := by
  unfold search_and_verify
  cases retryLoop delay attempts 0 mr false [] with
  | exn s => exact le_refl _
  | exhausted s => exact le_refl _
  | success rs had s =>
      by_cases hlen : rs.length > 5
      · simp [hlen]
      · cases had <;> simp [hlen]

theorem verifyAllGo_delay_mono (mr : ℕ) (attempts : String → ℕ → SearchResponse)
    (fetch : String → FetchResult) :
    ∀ (qs : List String) (d : ℚ) (found trace : List String),
    d ≤ (verifyAllGo mr attempts fetch qs d found trace).delay := by
  intro qs
  induction qs with
  | nil => intro d found trace; exact le_refl _
  | cons q rest ih =>
      intro d found trace
      have h1 := verify_delay_mono d mr q (attempts q) fetch
      simp only [verifyAllGo]
      cases ho : (search_and_verify d mr q (attempts q) fetch).outcome with
      | exn => simpa using h1
      | fatal => simpa using h1
      | ret b => exact le_trans h1 (ih _ _ _)

theorem search_and_verify_all_delay_mono (mr : ℕ)
    (attempts : String → ℕ → SearchResponse) (fetch : String → FetchResult)
    (qs : List String) (d : ℚ) :
    d ≤ (search_and_verify_all mr attempts fetch qs d).delay :=
  verifyAllGo_delay_mono mr attempts fetch qs d [] []

theorem mainFilterGo_delay_mono (mr : ℕ) (attempts : String → ℕ → SearchResponse)
    (fetch : String → FetchResult) (items : List String) :
    ∀ (pending : List String) (d : ℚ) (notFound trace : List String),
    d ≤ (mainFilterGo mr attempts fetch items pending d notFound trace).delay := by
  intro pending
  induction pending with
  | nil => intro d notFound trace; exact le_refl _
  | cons item rest ih =>
      intro d notFound trace
      have h1 := search_and_verify_all_delay_mono mr attempts fetch items d
      simp only [mainFilterGo]
      cases ho : (search_and_verify_all mr attempts fetch items d).exitc with
      | ok found => exact le_trans h1 (ih _ _ _)
      | fatal => simpa using h1
      | exn => simpa using h1

theorem retryLoop_diag_congr (delay : ℚ) (a1 a2 : ℕ → SearchResponse)
    (h : ∀ i, diagEquiv (search_tracker (a1 i)) (search_tracker (a2 i))) :
    ∀ (fuel start : ℕ) (had : Bool) (acc : List ℚ),
    retryLoop delay a1 start fuel had acc = retryLoop delay a2 start fuel had acc := by
  intro fuel
  induction fuel with
  | zero => intro start had acc; rfl
  | succ fuel ih =>
      intro start had acc
      have hs := h start
      cases h1 : search_tracker (a1 start) with
      | raised =>
          cases h2 : search_tracker (a2 start) with
          | raised => simp [retryLoop, h1, h2]
          | failed d => rw [h1, h2] at hs; exact hs.elim
          | results r2 => rw [h1, h2] at hs; exact hs.elim
      | failed d =>
          cases h2 : search_tracker (a2 start) with
          | raised => rw [h1, h2] at hs; exact hs.elim
          | failed d2 => simp only [retryLoop, h1, h2]; exact ih _ _ _
          | results r2 => rw [h1, h2] at hs; exact hs.elim
      | results r1 =>
          cases h2 : search_tracker (a2 start) with
          | raised => rw [h1, h2] at hs; exact hs.elim
          | failed d2 => rw [h1, h2] at hs; exact hs.elim
          | results r2 =>
              rw [h1, h2] at hs
              have hr : r1 = r2 := hs
              simp [retryLoop, h1, h2, hr]

theorem verify_diag_congr (delay : ℚ) (mr : ℕ) (q : String)
    (a1 a2 : ℕ → SearchResponse) (fetch : String → FetchResult)
    (h : ∀ i, diagEquiv (search_tracker (a1 i)) (search_tracker (a2 i))) :
    search_and_verify delay mr q a1 fetch = search_and_verify delay mr q a2 fetch := by
  unfold search_and_verify
  rw [retryLoop_diag_congr delay a1 a2 h]

theorem firstIndexerError_isSome (ixs : List Indexer) (ix : Indexer)
    (hmem : ix ∈ ixs) (e : String) (he : ix.Error = some e) (hne : e ≠ "") :
    ∃ e2, firstIndexerError ixs = some e2 := by
  induction ixs with
  | nil => cases hmem
  | cons a rest ih =>
      rcases List.mem_cons.mp hmem with heq | hmem2
      · subst heq
        rw [firstIndexerError, he]
        simp [hne]
      · cases ha : a.Error with
        | none => simpa [firstIndexerError, ha] using ih hmem2
        | some e2 =>
            by_cases h2 : e2 = ""
            · simpa [firstIndexerError, ha, h2] using ih hmem2
            · exact ⟨e2, by simp [firstIndexerError, ha, h2]⟩

/-- C1 (counterexample): with the empty query and a single candidate whose
descriptor downloads and parses fine and declares the empty string as its
name at path info.name, the declared name does contain the query (the empty
string is a substring of the empty string, and the fetch did not fail), yet
search_and_verify returns false — refuting the claimed iff as stated. -/
theorem verify_false_on_empty_name_empty_query :
    (search_and_verify 0 10 "" oneResultAttempts emptyNameFetch).outcome
        = Outcome.ret false ∧
    matches_query (get_torrent_name emptyNameFetch (some "L")) "" = true ∧
    emptyNameFetch "L" ≠ FetchResult.exn := by
  refine ⟨by decide, by decide, by decide⟩

/-- C1 (amended): when the retry loop succeeds with at most 5 results,
search_and_verify returns true iff at least one returned candidate has a
NON-EMPTY extracted declared name that contains the query as a
case-insensitive substring; a candidate whose fetch, parse or name
extraction fails yields the empty name and contributes no match, without
stopping the iteration over the other candidates. -/
theorem verify_true_iff_nonempty_match (delay : ℚ) (mr : ℕ) (q : String)
    (attempts : ℕ → SearchResponse) (fetch : String → FetchResult)
    (rs : List SearchResult) (had : Bool) (s : List ℚ)
    (hloop : retryLoop delay attempts 0 mr false [] = LoopExit.success rs had s)
    (hlen : ¬ rs.length > 5) :
    ((search_and_verify delay mr q attempts fetch).outcome = Outcome.ret true ↔
      ∃ r ∈ rs, get_torrent_name fetch r.Link ≠ "" ∧
        matches_query (get_torrent_name fetch r.Link) q = true) := by
  have hout : (search_and_verify delay mr q attempts fetch).outcome
      = Outcome.ret (scanResults fetch q rs false []).1 := by
    simp [search_and_verify, hloop, hlen]
  rw [hout, scanResults_fst]
  simp [List.any_eq_true]

/-- Witness for the amended C1 at a concrete run: a first-attempt success
with one candidate whose declared name is qq.match. -/
theorem verify_true_iff_nonempty_match_witness :
    ((search_and_verify 0 10 "qq" oneResultAttempts matchFetch).outcome
        = Outcome.ret true ↔
      ∃ r ∈ [(⟨some "T", some "L"⟩ : SearchResult)],
        get_torrent_name matchFetch r.Link ≠ "" ∧
        matches_query (get_torrent_name matchFetch r.Link) "qq" = true) :=
  verify_true_iff_nonempty_match 0 10 "qq" oneResultAttempts matchFetch
    [⟨some "T", some "L"⟩] false [] rfl (by decide)

/-- C2 (code evaluation at the failing input): main line 504 re-evaluates
searcher.search_and_verify_all(items, ...) inside the comprehension filter
once per item, so with two items every query reaches search_and_verify
twice: the run trace is a, b, a, b and query a is verified 2 times, not
once. -/
theorem main_verifies_each_item_twice :
    (main_not_found 10 zeroResultAttempts noFetch ["a", "b"] 0).trace
        = ["a", "b", "a", "b"] ∧
    ((main_not_found 10 zeroResultAttempts noFetch ["a", "b"] 0).trace).count "a"
        = 2 := by
  refine ⟨by decide, by decide⟩

/-- C3 (counterexample): a first attempt that times out (or gets a non-2xx
status) raises through search_and_verify: the outcome is the uncaught
exception, no backoff sleep was performed (the attempt was not retried), and
the exit is not the fatal retries-exhausted abort — refuting the claim that
such a failure is retried under the backoff schedule. -/
theorem timeout_escapes_retry_loop :
    search_and_verify 0 10 "q" (fun _ => SearchResponse.exn) noFetch
        = ⟨Outcome.exn, 0, [], []⟩ ∧
    Outcome.exn ≠ Outcome.fatal := by
  refine ⟨rfl, by decide⟩

/-- C3 (amended): only backend-reported per-indexer errors (search_tracker
returning None) are retried under the backoff schedule; an attempt that
raises (timeout or non-2xx) escapes the retry loop immediately and crashes
the call, after exactly the k backoff sleeps of the preceding per-indexer
failures. -/
theorem only_indexer_errors_retried (delay : ℚ) (mr : ℕ) (q : String)
    (attempts : ℕ → SearchResponse) (fetch : String → FetchResult) (k : ℕ)
    (hk : k < mr)
    (hfail : ∀ i, i < k → ∃ d, search_tracker (attempts i) = SearchCall.failed d)
    (hexn : search_tracker (attempts k) = SearchCall.raised) :
    (search_and_verify delay mr q attempts fetch).outcome = Outcome.exn ∧
    (search_and_verify delay mr q attempts fetch).sleeps.length = k := by
  obtain ⟨s, hs⟩ := retryLoop_exn_of delay attempts k mr 0 false [] hk
    (fun i hi => by simpa using hfail i hi) (by simpa using hexn)
  constructor
  · simp [search_and_verify, hs]
  · rw [search_and_verify_sleeps, retryLoop_sleeps,
      failStreak_eq attempts k mr 0 hk
        (fun i hi => by simpa using hfail i hi) (by simpa using hexn)]
    simp

/-- Witness for the amended C3: one per-indexer failure, then an exception
on the second attempt. -/
theorem only_indexer_errors_retried_witness :
    (search_and_verify 0 10 "q" failThenRaise noFetch).outcome = Outcome.exn ∧
    (search_and_verify 0 10 "q" failThenRaise noFetch).sleeps.length = 1 :=
  only_indexer_errors_retried 0 10 "q" failThenRaise noFetch 1 (by decide)
    (fun i hi =>
      match i, hi with
      | 0, _ => ⟨ErrDiag.unknown, rfl⟩
      | n + 1, h => absurd h (by omega))
    rfl

/-- C4: when search_and_verify returns (rather than crashing or aborting),
its delay afterwards equals the delay before when the first attempt
succeeded, and equals the delay before plus exactly 1.0 when at least one
retry was needed, however many retries occurred; moreover the delay of one
call never decreases, and across a whole run of main the delay never
decreases either. -/
theorem delay_increase_policy (delay : ℚ) (mr : ℕ) (q : String)
    (attempts : ℕ → SearchResponse) (fetch : String → FetchResult) :
    (∀ b : Bool, (search_and_verify delay mr q attempts fetch).outcome = Outcome.ret b →
      (((∃ rs, search_tracker (attempts 0) = SearchCall.results rs) →
          (search_and_verify delay mr q attempts fetch).delay = delay) ∧
       ((¬ ∃ rs, search_tracker (attempts 0) = SearchCall.results rs) →
          (search_and_verify delay mr q attempts fetch).delay = delay + 1))) ∧
    delay ≤ (search_and_verify delay mr q attempts fetch).delay ∧
    (∀ (attemptsQ : String → ℕ → SearchResponse) (fetchQ : String → FetchResult)
        (items : List String) (d0 : ℚ),
        d0 ≤ (main_not_found mr attemptsQ fetchQ items d0).delay) := by
  refine ⟨?_, verify_delay_mono delay mr q attempts fetch, ?_⟩
  · intro b hb
    obtain ⟨rs, had, s, hloop, hlen⟩ := verify_outcome_ret delay mr q attempts fetch b hb
    have hd := verify_delay_eq delay mr q attempts fetch rs had s hloop hlen
    rcases retryLoop_first_dichotomy delay attempts mr rs had s hloop with
      ⟨hf, hres⟩ | ⟨ht, d, hfailed⟩
    · subst hf
      refine ⟨fun _ => by simpa using hd, fun hn => absurd ⟨rs, hres⟩ hn⟩
    · subst ht
      refine ⟨?_, fun _ => by simpa using hd⟩
      rintro ⟨rs2, hres2⟩
      rw [hfailed] at hres2
      exact SearchCall.noConfusion hres2
  · intro attemptsQ fetchQ items d0
    exact mainFilterGo_delay_mono mr attemptsQ fetchQ items items d0 [] []

/-- Witness for C4: two per-indexer failures and then a success leave the
delay at exactly its old value plus 1. -/
theorem delay_increase_policy_witness :
    (search_and_verify 0 10 "qq" twoFailAttempts matchFetch).delay = 0 + 1 := by
  have h := (delay_increase_policy 0 10 "qq" twoFailAttempts matchFetch).1 true (by decide)
  refine h.2 ?_
  rintro ⟨rs, hres⟩
  have h0 : search_tracker (twoFailAttempts 0) = SearchCall.failed ErrDiag.unknown := rfl
  rw [h0] at hres
  exact SearchCall.noConfusion hres

/-- C5: a successful search with more than 5 results makes search_and_verify
abort the process fatally, with the delay untouched and no descriptor URL
ever fetched. -/
theorem too_many_results_fatal (delay : ℚ) (mr : ℕ) (q : String)
    (attempts : ℕ → SearchResponse) (fetch : String → FetchResult)
    (rs : List SearchResult) (had : Bool) (s : List ℚ)
    (hloop : retryLoop delay attempts 0 mr false [] = LoopExit.success rs had s)
    (hlen : rs.length > 5) :
    search_and_verify delay mr q attempts fetch
      = ⟨Outcome.fatal, delay, s, []⟩ := by
  simp [search_and_verify, hloop, hlen]

/-- Witness for C5: a first-attempt success with six results. -/
theorem too_many_results_fatal_witness :
    search_and_verify 0 10 "q" sixResultsAttempts noFetch
      = ⟨Outcome.fatal, 0, [], []⟩ :=
  too_many_results_fatal 0 10 "q" sixResultsAttempts noFetch
    (List.replicate 6 ⟨some "T", none⟩) false [] rfl (by decide)

/-- C6: when every one of the max_retries attempts fails with a
backend-reported per-indexer error, search_and_verify exits the process
fatally (sys.exit(1)) and no descriptor endpoint is ever called. -/
theorem retries_exhausted_fatal (delay : ℚ) (mr : ℕ) (q : String)
    (attempts : ℕ → SearchResponse) (fetch : String → FetchResult)
    (h : ∀ i, i < mr → ∃ d, search_tracker (attempts i) = SearchCall.failed d) :
    (search_and_verify delay mr q attempts fetch).outcome = Outcome.fatal ∧
    (search_and_verify delay mr q attempts fetch).fetched = [] := by
  obtain ⟨s, hs⟩ := retryLoop_exhausted_of_failed delay attempts mr 0 false []
    (fun i hi => by simpa using h i hi)
  constructor <;> simp [search_and_verify, hs]

/-- Witness for C6: all 10 default attempts rate limited. -/
theorem retries_exhausted_fatal_witness :
    (search_and_verify 0 10 "q" alwaysFailAttempts noFetch).outcome = Outcome.fatal ∧
    (search_and_verify 0 10 "q" alwaysFailAttempts noFetch).fetched = [] :=
  retries_exhausted_fatal 0 10 "q" alwaysFailAttempts noFetch
    (fun _ _ => ⟨ErrDiag.tooMany, rfl⟩)

/-- C7: the j-th backoff wait performed by a search_and_verify call
(0-indexed j, so retry number k = j + 1) is exactly
max(delay, 4.0) * (j + 1) seconds: linear in the retry number and floored
at 4 seconds whatever the configured delay. -/
theorem backoff_schedule (delay : ℚ) (mr : ℕ) (q : String)
    (attempts : ℕ → SearchResponse) (fetch : String → FetchResult) (j : ℕ)
    (hj : j < (search_and_verify delay mr q attempts fetch).sleeps.length) :
    (search_and_verify delay mr q attempts fetch).sleeps.getD j 0
      = max delay 4 * ((j : ℚ) + 1) := by
  have hs := search_and_verify_sleeps delay mr q attempts fetch
  have hr := retryLoop_sleeps delay attempts mr 0 false []
  rw [hs, hr, List.nil_append] at hj ⊢
  rw [List.getD_eq_getElem?_getD, List.getElem?_eq_getElem hj, Option.getD_some,
    List.getElem_map, List.getElem_range]
  norm_num

/-- Witness for C7: with delay 0, the second wait of a run that failed twice
is max(0, 4) * 2. -/
theorem backoff_schedule_witness :
    (search_and_verify 0 10 "qq" twoFailAttempts matchFetch).sleeps.getD 1 0
      = max (0 : ℚ) 4 * (((1 : ℕ) : ℚ) + 1) :=
  backoff_schedule 0 10 "qq" twoFailAttempts matchFetch 1 (by decide)

/-- C8: a response in which some indexer carries a non-empty Error makes
search_tracker fail (return None), an outcome distinct by construction from
a success with zero results; and the rate-limited versus unknown
sub-classification is invisible to the retry logic: two attempt oracles
whose classifications agree up to the diagnostic yield identical
search_and_verify results. -/
theorem indexer_error_classification :
    (∀ (ixs : List Indexer) (rs : List SearchResult) (ix : Indexer), ix ∈ ixs →
       ∀ e, ix.Error = some e → e ≠ "" →
       ∃ d, search_tracker (SearchResponse.ok ixs rs) = SearchCall.failed d) ∧
    (∀ (d : ErrDiag) (rs : List SearchResult),
       SearchCall.failed d ≠ SearchCall.results rs) ∧
    (∀ (delay : ℚ) (mr : ℕ) (q : String) (a1 a2 : ℕ → SearchResponse)
        (fetch : String → FetchResult),
       (∀ i, diagEquiv (search_tracker (a1 i)) (search_tracker (a2 i))) →
       search_and_verify delay mr q a1 fetch = search_and_verify delay mr q a2 fetch) := by
  refine ⟨?_, ?_, ?_⟩
  · intro ixs rs ix hmem e he hne
    obtain ⟨e2, he2⟩ := firstIndexerError_isSome ixs ix hmem e he hne
    exact ⟨classifyError e2, by simp [search_tracker, he2]⟩
  · intro d rs h
    exact SearchCall.noConfusion h
  · intro delay mr q a1 a2 fetch h
    exact verify_diag_congr delay mr q a1 a2 fetch h

/-- Witness for C8: a concrete indexer error is classified as failed. -/
theorem indexer_error_classification_witness :
    ∃ d, search_tracker (SearchResponse.ok [⟨some "boom"⟩] [⟨some "T", some "L"⟩])
      = SearchCall.failed d :=
  indexer_error_classification.1 [⟨some "boom"⟩] [⟨some "T", some "L"⟩]
    ⟨some "boom"⟩ (by simp) "boom" rfl (by decide)

/-- C9 (code evaluation at the failing input): search_tracker quote_plus
encodes the query and then hands it to the HTTP layer as a params value,
which quote_plus encodes it a second time; for a query with spaces the
value on the wire is the double encoding, not the single encoding the claim
requires. -/
theorem query_double_encoded :
    query_param_value "Big Buck Bunny" = "Big+Buck+Bunny" ∧
    wire_Query "Big Buck Bunny" = "Big%2BBuck%2BBunny" ∧
    wire_Query "Big Buck Bunny" ≠ query_param_value "Big Buck Bunny" := by
  refine ⟨by decide, by decide, by decide⟩

/-- C10: a candidate whose extracted declared name is empty (fetch failure,
parse failure, or missing info.name path) never contributes a match, even
for the empty query — although the empty query is a substring of every
name, including the empty one; a match requires a non-empty extracted
name. -/
theorem empty_name_never_matches (delay : ℚ) (mr : ℕ) (q : String)
    (attempts : ℕ → SearchResponse) (fetch : String → FetchResult)
    (rs : List SearchResult) (had : Bool) (s : List ℚ)
    (hloop : retryLoop delay attempts 0 mr false [] = LoopExit.success rs had s)
    (hlen : ¬ rs.length > 5) :
    ((∀ r ∈ rs, get_torrent_name fetch r.Link = "") →
      (search_and_verify delay mr q attempts fetch).outcome = Outcome.ret false) ∧
    ((search_and_verify delay mr q attempts fetch).outcome = Outcome.ret true →
      ∃ r ∈ rs, get_torrent_name fetch r.Link ≠ "") ∧
    (∀ name : String, matches_query name "" = true) := by
  have hout : (search_and_verify delay mr q attempts fetch).outcome
      = Outcome.ret (scanResults fetch q rs false []).1 := by
    simp [search_and_verify, hloop, hlen]
  refine ⟨?_, ?_, ?_⟩
  · intro hall
    rw [hout, scanResults_fst]
    have hany : rs.any (fun r => !(get_torrent_name fetch r.Link == "") &&
        matches_query (get_torrent_name fetch r.Link) q) = false := by
      rw [List.any_eq_false]
      intro r hr
      simp [hall r hr]
    simp [hany]
  · intro htrue
    rw [hout, scanResults_fst] at htrue
    simp only [Bool.false_or, Outcome.ret.injEq] at htrue
    rw [List.any_eq_true] at htrue
    obtain ⟨r, hr, hp⟩ := htrue
    refine ⟨r, hr, ?_⟩
    intro hname
    rw [hname] at hp
    simp at hp
  · intro name
    have hq : (("" : String).data.map Char.toLower) = [] := rfl
    rw [matches_query, hq]
    exact isSubstring_nil _

/-- Witness for C10: the empty query against one candidate whose descriptor
download fails returns false. -/
theorem empty_name_never_matches_witness :
    (search_and_verify 0 10 "" oneResultAttempts noFetch).outcome
      = Outcome.ret false :=
  (empty_name_never_matches 0 10 "" oneResultAttempts noFetch
      [⟨some "T", some "L"⟩] false [] rfl (by decide)).1
    (fun r hr => by rw [List.mem_singleton.mp hr]; rfl)

end Scanarr
